import Mathlib

/-
Verification development for the memorization voice-skill backend
(`main.py`).  The program stores an "original" text per session in a
`texts` table, compares later utterances against it with a fuzzy
similarity score, and answers every inbound event with a fixed-shape
response.

Strings are modelled as lists of Unicode code points (`List Nat`),
matching Python's view of `str` as a sequence of code points.  The
character classification functions (`str.lower`, `str.isalnum`,
`str.isspace`) are modelled over the alphabets the program actually
manipulates: ASCII and the Cyrillic block used by the skill's
messages.
-/

namespace Memorize

/-- Code points of a Lean string literal, used to transcribe the
Python string literals of the source. -/
def strLit (s : String) : List Nat :=
  s.data.map Char.toNat

/-- Model of Python `str.lower` on one code point, covering ASCII
`A`-`Z` and Cyrillic `А`-`Я` / `Ё` (the alphabets the program uses);
all other modelled code points are fixed. -/
def pyLower (c : Nat) : Nat :=
  if 65 ≤ c ∧ c ≤ 90 then c + 32
  else if 1040 ≤ c ∧ c ≤ 1071 then c + 32
  else if c = 1025 then 1105
  else c

/-- Model of Python `str.isspace` on one code point (ASCII whitespace). -/
def pyIsSpace (c : Nat) : Bool :=
  decide (c = 32) || decide (c = 9) || decide (c = 10) ||
  decide (c = 11) || decide (c = 12) || decide (c = 13)

/-- Model of Python `str.isalnum` on one code point: ASCII digits and
letters plus the Cyrillic letters `а`-`я`, `А`-`Я`, `ё`, `Ё`. -/
def pyIsAlnum (c : Nat) : Bool :=
  decide (48 ≤ c ∧ c ≤ 57) || decide (65 ≤ c ∧ c ≤ 90) ||
  decide (97 ≤ c ∧ c ≤ 122) || decide (1040 ≤ c ∧ c ≤ 1103) ||
  decide (c = 1025) || decide (c = 1105)

/-- The filter `e.isalnum() or e.isspace()` of `clean_text`. -/
def keepChar (c : Nat) : Bool :=
  pyIsAlnum c || pyIsSpace c

/-- Helper for Python `str.split()`: returns the current word being
built at the head of the list together with the completed words after
it.  Words are maximal runs of non-whitespace code points. -/
def splitF : List Nat → (List Nat × List (List Nat))
  | [] => ([], [])
  | c :: rest =>
    let p := splitF rest
    if pyIsSpace c then
      ([], if p.1 = [] then p.2 else p.1 :: p.2)
    else
      (c :: p.1, p.2)

/-- Model of Python `str.split()` (split on whitespace runs, no empty
chunks). -/
def pySplit (l : List Nat) : List (List Nat) :=
  let p := splitF l
  if p.1 = [] then p.2 else p.1 :: p.2

/-- Model of `" ".join(words)`. -/
def joinSpace : List (List Nat) → List Nat
  | [] => []
  | [w] => w
  | w :: ws => w ++ 32 :: joinSpace ws

/-- Translation of `clean_text` from `main.py`:
`" ".join(''.join(e for e in text.lower() if e.isalnum() or e.isspace()).split())`. -/
def clean_text (text : List Nat) : List Nat :=
  joinSpace (pySplit ((text.map pyLower).filter keepChar))

/-! ### Similarity scorer -/

/-- Length of the longest common prefix of two lists: the length of the
matching block that starts at a given pair of positions. -/
def matchLen : List Nat → List Nat → Nat
  | a :: as, b :: bs => if a = b then matchLen as bs + 1 else 0
  | _, _ => 0

/-- Inner step of the longest-match search: at fixed start `i` in `a`,
try start `j` in `b`, keeping the candidate only on strict improvement
(so the first maximal block in scan order wins). -/
def stepJ (a b : List Nat) (i : Nat) (best : Nat × Nat × Nat) (j : Nat) :
    Nat × Nat × Nat :=
  let k := matchLen (a.drop i) (b.drop j)
  if best.2.2 < k then (i, j, k) else best

/-- Outer step of the longest-match search over starts `i` in `a`. -/
def stepI (a b : List Nat) (best : Nat × Nat × Nat) (i : Nat) :
    Nat × Nat × Nat :=
  (List.range b.length).foldl (stepJ a b i) best

/-- Modelled from the spec: the longest-common-substring step of the
reference fuzzy matcher (the repository only imports `fuzz.ratio`; its
code is not part of the repository).  Returns `(i, j, k)`: the longest
matching block `a[i:i+k] = b[j:j+k]`, ties broken by the earliest start
in `a`, then the earliest start in `b`; `(0, 0, 0)` when there is no
match. -/
def bestMatch (a b : List Nat) : Nat × Nat × Nat :=
  (List.range a.length).foldl (stepI a b) (0, 0, 0)

/-- Modelled from the spec: total number `M` of matching characters
found by the recursive longest-common-substring matching procedure —
take the longest matching block, then recurse on the pieces to its
left and to its right.  The fuel argument bounds the recursion depth;
`a.length` is always sufficient since each recursive call strictly
shortens the first list. -/
def matchTotalF : Nat → List Nat → List Nat → Nat
  | 0, _, _ => 0
  | fuel + 1, a, b =>
    let m := bestMatch a b
    if m.2.2 = 0 then 0
    else
      m.2.2 + matchTotalF fuel (a.take m.1) (b.take m.2.1) +
        matchTotalF fuel (a.drop (m.1 + m.2.2)) (b.drop (m.2.1 + m.2.2))

/-- Total matched characters `M` for the similarity ratio. -/
def matchTotal (a b : List Nat) : Nat :=
  matchTotalF a.length a b

/-- Python `int(round(num / den))` on a nonnegative rational `num/den`:
round half to even. -/
def pyRoundHalfEven (num den : Nat) : Nat :=
  let q := num / den
  let r := num % den
  if 2 * r < den then q
  else if den < 2 * r then q + 1
  else if q % 2 = 0 then q else q + 1

/-- Modelled from the spec: the reference library's `fuzz.ratio` — the
similarity ratio `2*M / T` scaled to an integer percentage, where `M`
is `matchTotal` and `T` is the combined length of both strings; two
empty strings give 100 by convention. -/
def ratioPct (a b : List Nat) : Nat :=
  let t := a.length + b.length
  if t = 0 then 100 else pyRoundHalfEven (200 * matchTotal a b) t

/-- Translation of `calculate_similarity` from `main.py`: clean both
texts, then apply the fuzzy ratio. -/
def calculate_similarity (original user_text : List Nat) : Nat :=
  ratioPct (clean_text original) (clean_text user_text)

/-! ### Persistence store

The `texts` table (`session_id VARCHAR PRIMARY KEY, original_text TEXT
NOT NULL`) is modelled as an association list keyed by `session_id`;
the operations below translate the SQL statements of
`save_original_text`, `get_original_text` and `delete_original_text`
under the primary-key semantics of the table. -/

/-- The `texts` table: `session_id ↦ original_text`. -/
abbrev Store : Type := List (List Nat × List Nat)

/-- Translation of `ensure_table_exists`: `CREATE TABLE IF NOT EXISTS`
never changes existing rows, so on the model state it is the
identity. -/
def ensure_table_exists (db : Store) : Store := db

/-- Translation of `save_original_text`:
`INSERT ... ON DUPLICATE KEY UPDATE original_text = ...` — overwrite
the row for the key if present, otherwise insert a new row. -/
def save_original_text : Store → List Nat → List Nat → Store
  | [], session_id, text => [(session_id, text)]
  | (k, v) :: rest, session_id, text =>
    if k = session_id then (session_id, text) :: rest
    else (k, v) :: save_original_text rest session_id text

/-- Translation of `get_original_text`:
`SELECT original_text FROM texts WHERE session_id = %s` with
`fetchone`; `none` models the Python `None` returned on a miss. -/
def get_original_text : Store → List Nat → Option (List Nat)
  | [], _ => none
  | (k, v) :: rest, session_id =>
    if k = session_id then some v else get_original_text rest session_id

/-- Translation of `delete_original_text`:
`DELETE FROM texts WHERE session_id = %s` (idempotent delete). -/
def delete_original_text : Store → List Nat → Store
  | [], _ => []
  | (k, v) :: rest, session_id =>
    if k = session_id then delete_original_text rest session_id
    else (k, v) :: delete_original_text rest session_id

/-! ### Response builder and handler -/

/-- One button of the reply payload. -/
structure Button where
  title : List Nat
  hide : Bool
deriving DecidableEq

/-- The `response` part of the reply payload. -/
structure ResponseBody where
  text : List Nat
  buttons : List Button
  end_session : Bool
deriving DecidableEq

/-- The `session` echo of the reply payload; `create_response` defaults
`session_id` and `user_id` to `None`, modelled by `Option`. -/
structure SessionEcho where
  session_id : Option (List Nat)
  user_id : Option (List Nat)
  new : Bool
deriving DecidableEq

/-- The full reply payload returned to the transport. -/
structure Response where
  response : ResponseBody
  session : SessionEcho
  version : List Nat
deriving DecidableEq

/-- Translation of `create_response` from `main.py`; `buttons or []`
defaults a missing button list to the empty list. -/
def create_response (text : List Nat) (buttons : Option (List Button))
    (session_id user_id : Option (List Nat)) : Response :=
  { response :=
      { text := text
        buttons := buttons.getD []
        end_session := false }
    session :=
      { session_id := session_id
        user_id := user_id
        new := true }
    version := strLit "1.0" }

/-- The inbound event.  Each field models one nested lookup of the
Python dict (`event['request']['original_utterance']`,
`event['session']['session_id']`, `event['session']['user_id']`,
`event['session']['new']`); `none` models a missing key, on which the
Python lookup raises `KeyError`. -/
structure Event where
  request_original_utterance : Option (List Nat)
  session_session_id : Option (List Nat)
  session_user_id : Option (List Nat)
  session_new : Option Bool
deriving DecidableEq

/-- Failure oracle for the database layer: which of the four store
operations raises (connection or query error) on this request.  A
failing operation raises before mutating the store. -/
structure DBFail where
  ensure : Bool
  del : Bool
  get : Bool
  save : Bool
deriving DecidableEq

instance {ε α : Type} [DecidableEq ε] [DecidableEq α] :
    DecidableEq (Except ε α) := fun x y =>
  match x, y with
  | .error a, .error b =>
    if h : a = b then isTrue (by rw [h]) else isFalse (by simp [h])
  | .ok a, .ok b =>
    if h : a = b then isTrue (by rw [h]) else isFalse (by simp [h])
  | .error _, .ok _ => isFalse (by simp)
  | .ok _, .error _ => isFalse (by simp)

/-- The reset keyword `"сбросить"` compared against the lowercased
utterance. -/
def resetKeyword : List Nat := strLit "сбросить"

/-- The reset button `{"title": "Сбросить", "hide": True}` attached to
every response. -/
def resetButton : Button := { title := strLit "Сбросить", hide := true }

/-- Greeting text of the new-session branch. -/
def greetText : List Nat :=
  strLit "Здравствуйте, введите текст, который хотите выучить."

/-- Confirmation text of the reset branch. -/
def deletedText : List Nat :=
  strLit "Текст был удалён. Введите новый текст."

/-- Confirmation text of the save branch. -/
def savedText : List Nat :=
  strLit "Оригинальный текст сохранён. Теперь расскажите его, как вы запомнили."

/-- Text of the generic apology returned by the `except` block. -/
def apologyText : List Nat :=
  strLit "Произошла ошибка. Попробуйте снова."

/-- Decimal digits of a natural number, for the f-string interpolation
of the similarity percentage. -/
def natDecimal (n : Nat) : List Nat :=
  (Nat.toDigits 10 n).map Char.toNat

/-- The f-string of the similarity branch:
`"Процент совпадения: {similarity}%\n\nОригинал текста: {original_text}\n\nВаш текст: {user_message}"`. -/
def scoreText (similarity : Nat) (original_text user_message : List Nat) :
    List Nat :=
  strLit "Процент совпадения: " ++ natDecimal similarity ++
    strLit "%\n\nОригинал текста: " ++ original_text ++
    strLit "\n\nВаш текст: " ++ user_message

/-- The generic apology response built by the `except` block of
`handler`. -/
def apology (session_id user_id : List Nat) : Response :=
  create_response apologyText (some [resetButton]) (some session_id)
    (some user_id)

/-- The `try` block of `handler` after the three field extractions:
schema ensure, then the four-branch ladder.  `Except.error ()` models
an exception raised inside the `try` block (a failing database
operation, or the `KeyError` on a missing `session.new` key); every
failure point precedes the single store mutation of its branch, so the
store is unchanged when an error is raised. -/
def handlerBody (user_message session_id _user_id : List Nat)
    (new_flag : Option Bool) (db : Store) (fail : DBFail) :
    Except Unit (Response × Store) :=
  if fail.ensure then .error ()
  else
    let db := ensure_table_exists db
    match new_flag with
    | none => .error ()
    | some isNew =>
      if isNew then
        .ok (create_response greetText (some [resetButton])
              (some session_id) (some _user_id), db)
      else if user_message.map pyLower = resetKeyword then
        if fail.del then .error ()
        else
          .ok (create_response deletedText (some [resetButton])
                (some session_id) (some _user_id),
               delete_original_text db session_id)
      else if fail.get then .error ()
      else
        match get_original_text db session_id with
        | none =>
          if fail.save then .error ()
          else
            .ok (create_response savedText (some [resetButton])
                  (some session_id) (some _user_id),
                 save_original_text db session_id user_message)
        | some original_text =>
          if original_text = [] then
            if fail.save then .error ()
            else
              .ok (create_response savedText (some [resetButton])
                    (some session_id) (some _user_id),
                   save_original_text db session_id user_message)
          else
            .ok (create_response
                  (scoreText (calculate_similarity original_text user_message)
                    original_text user_message)
                  (some [resetButton]) (some session_id) (some _user_id), db)

/-- Translation of `handler` from `main.py`.  The three field
extractions run first inside the `try`; if any of them raises
`KeyError`, the `except` block itself evaluates the unbound local
`session_id`/`user_id` and raises `NameError`, so the call fails
(`Except.error`).  Once the three locals are bound, any exception from
the body is caught and converted into the generic apology response,
with the store as it was at the failure point. -/
def handler (ev : Event) (db : Store) (fail : DBFail) :
    Except Unit (Response × Store) :=
  match ev.request_original_utterance with
  | none => .error ()
  | some user_message =>
    match ev.session_session_id with
    | none => .error ()
    | some session_id =>
      match ev.session_user_id with
      | none => .error ()
      | some user_id =>
        match handlerBody user_message session_id user_id ev.session_new db fail with
        | .ok r => .ok r
        | .error _ => .ok (apology session_id user_id, db)

/-! ### Lemmas about the text normalizer -/

lemma pyLower_idem (c : Nat) : pyLower (pyLower c) = pyLower c := by
  unfold pyLower
  split_ifs <;> omega

lemma splitF_cons_nonspace {c : Nat} (h : pyIsSpace c = false) (l : List Nat) :
    splitF (c :: l) = (c :: (splitF l).1, (splitF l).2) := by
  simp [splitF, h]

lemma splitF_cons_space {c : Nat} (h : pyIsSpace c = true) (l : List Nat) :
    splitF (c :: l) = ([], pySplit l) := by
  simp [splitF, pySplit, h]

lemma splitF_append_word {w : List Nat} (hw : ∀ c ∈ w, pyIsSpace c = false)
    (l : List Nat) : splitF (w ++ l) = (w ++ (splitF l).1, (splitF l).2) := by
  induction w with
  | nil => simp
  | cons c w ih =>
    have hc : pyIsSpace c = false := hw c (by simp)
    have hw' : ∀ d ∈ w, pyIsSpace d = false := fun d hd => hw d (by simp [hd])
    simp [List.cons_append, splitF_cons_nonspace hc, ih hw']

lemma pySplit_joinSpace {ws : List (List Nat)}
    (h : ∀ w ∈ ws, w ≠ [] ∧ ∀ c ∈ w, pyIsSpace c = false) :
    pySplit (joinSpace ws) = ws := by
  induction ws with
  | nil => simp [joinSpace, pySplit, splitF]
  | cons w ws ih =>
    obtain ⟨hne, hns⟩ := h w (by simp)
    cases ws with
    | nil =>
      have hs : splitF w = (w, []) := by
        have h2 := splitF_append_word hns ([] : List Nat)
        simpa [splitF] using h2
      simp [joinSpace, pySplit, hs, hne]
    | cons w2 ws2 =>
      have hws : ∀ v ∈ w2 :: ws2, v ≠ [] ∧ ∀ c ∈ v, pyIsSpace c = false :=
        fun v hv => h v (by simp [hv])
      have hjoin : joinSpace (w :: w2 :: ws2) = w ++ 32 :: joinSpace (w2 :: ws2) := rfl
      have hs : splitF (w ++ 32 :: joinSpace (w2 :: ws2)) = (w, w2 :: ws2) := by
        rw [splitF_append_word hns, splitF_cons_space (by decide), ih hws]
        simp
      rw [hjoin]
      simp only [pySplit, hs]
      simp [hne]

lemma splitF_chars (l : List Nat) :
    (∀ c ∈ (splitF l).1, pyIsSpace c = false ∧ c ∈ l) ∧
    (∀ w ∈ (splitF l).2, w ≠ [] ∧ ∀ c ∈ w, pyIsSpace c = false ∧ c ∈ l) := by
  induction l with
  | nil => simp [splitF]
  | cons a l ih =>
    obtain ⟨ih1, ih2⟩ := ih
    by_cases ha : pyIsSpace a = true
    · rw [splitF_cons_space ha]
      refine ⟨by simp, ?_⟩
      intro w hw
      simp only [pySplit] at hw
      split at hw
      · obtain ⟨hne, hc⟩ := ih2 w hw
        exact ⟨hne, fun c hcw => ⟨(hc c hcw).1, by simp [(hc c hcw).2]⟩⟩
      · rcases List.mem_cons.mp hw with rfl | hw
        · rename_i hemp
          exact ⟨hemp, fun c hcw => ⟨(ih1 c hcw).1, by simp [(ih1 c hcw).2]⟩⟩
        · obtain ⟨hne, hc⟩ := ih2 w hw
          exact ⟨hne, fun c hcw => ⟨(hc c hcw).1, by simp [(hc c hcw).2]⟩⟩
    · have ha' : pyIsSpace a = false := by simpa using ha
      rw [splitF_cons_nonspace ha']
      constructor
      · intro c hc
        rcases List.mem_cons.mp hc with rfl | hc
        · exact ⟨ha', by simp⟩
        · exact ⟨(ih1 c hc).1, by simp [(ih1 c hc).2]⟩
      · intro w hw
        obtain ⟨hne, hc⟩ := ih2 w hw
        exact ⟨hne, fun c hcw => ⟨(hc c hcw).1, by simp [(hc c hcw).2]⟩⟩

lemma pySplit_words {l : List Nat} :
    ∀ w ∈ pySplit l, w ≠ [] ∧ ∀ c ∈ w, pyIsSpace c = false ∧ c ∈ l := by
  intro w hw
  obtain ⟨h1, h2⟩ := splitF_chars l
  simp only [pySplit] at hw
  split at hw
  · exact h2 w hw
  · rcases List.mem_cons.mp hw with rfl | hw
    · rename_i hemp
      exact ⟨hemp, fun c hcw => h1 c hcw⟩
    · exact h2 w hw

lemma mem_joinSpace {c : Nat} :
    ∀ {ws : List (List Nat)}, c ∈ joinSpace ws → c = 32 ∨ ∃ w ∈ ws, c ∈ w := by
  intro ws
  induction ws with
  | nil => simp [joinSpace]
  | cons w ws ih =>
    cases ws with
    | nil =>
      intro h
      exact Or.inr ⟨w, by simp, by simpa [joinSpace] using h⟩
    | cons w2 ws2 =>
      intro h
      rw [show joinSpace (w :: w2 :: ws2) = w ++ 32 :: joinSpace (w2 :: ws2) from rfl] at h
      rcases List.mem_append.mp h with hw | h32
      · exact Or.inr ⟨w, by simp, hw⟩
      · rcases List.mem_cons.mp h32 with rfl | hj
        · exact Or.inl rfl
        · rcases ih hj with h32' | ⟨v, hv, hcv⟩
          · exact Or.inl h32'
          · exact Or.inr ⟨v, by simp [hv], hcv⟩

lemma clean_text_chars {s : List Nat} :
    ∀ c ∈ clean_text s, pyLower c = c ∧ keepChar c = true := by
  intro c hc
  rcases mem_joinSpace hc with rfl | ⟨w, hw, hcw⟩
  · exact ⟨by decide, by decide⟩
  · have hmem := (pySplit_words w hw).2 c hcw
    have hfilter := hmem.2
    have hkeep := List.mem_filter.mp hfilter
    obtain ⟨c', _, rfl⟩ := List.mem_map.mp hkeep.1
    exact ⟨pyLower_idem c', hkeep.2⟩

lemma map_id_of {l : List Nat} {f : Nat → Nat} (h : ∀ c ∈ l, f c = c) :
    l.map f = l := by
  induction l with
  | nil => rfl
  | cons a l ih =>
    simp [h a (by simp), ih (fun c hc => h c (by simp [hc]))]

/-- C7: normalization is idempotent — cleaning already-cleaned text
returns it unchanged. -/
theorem c7_clean_text_idem (s : List Nat) :
    clean_text (clean_text s) = clean_text s := by
  have hchars := @clean_text_chars s
  have hmap : (clean_text s).map pyLower = clean_text s :=
    map_id_of (fun c hc => (hchars c hc).1)
  have hfilter : (clean_text s).filter keepChar = clean_text s :=
    List.filter_eq_self.mpr (fun c hc => (hchars c hc).2)
  have hwords : ∀ w ∈ pySplit ((s.map pyLower).filter keepChar),
      w ≠ [] ∧ ∀ c ∈ w, pyIsSpace c = false :=
    fun w hw => ⟨(pySplit_words w hw).1, fun c hc => ((pySplit_words w hw).2 c hc).1⟩
  show joinSpace (pySplit (((clean_text s).map pyLower).filter keepChar)) = clean_text s
  rw [hmap, hfilter]
  conv_lhs => rw [clean_text]
  rw [pySplit_joinSpace hwords]
  rfl

/-! ### Lemmas about the similarity scorer -/

lemma matchLen_self (l : List Nat) : matchLen l l = l.length := by
  induction l with
  | nil => rfl
  | cons a l ih => simp [matchLen, ih]

lemma matchLen_le_left (x : List Nat) : ∀ y, matchLen x y ≤ x.length := by
  induction x with
  | nil => intro y; cases y <;> simp [matchLen]
  | cons a as ih =>
    intro y
    cases y with
    | nil => simp [matchLen]
    | cons b bs =>
      by_cases h : a = b
      · simpa [matchLen, h] using Nat.succ_le_succ (ih bs)
      · simp [matchLen, h]

lemma foldl_stepJ_fix {a b : List Nat} {i : Nat} {best : Nat × Nat × Nat}
    (h : ∀ j, matchLen (a.drop i) (b.drop j) ≤ best.2.2) :
    ∀ l : List Nat, l.foldl (stepJ a b i) best = best := by
  intro l
  induction l with
  | nil => rfl
  | cons j l ih =>
    have hj : stepJ a b i best j = best := by
      simp [stepJ, Nat.not_lt.mpr (h j)]
    simp [List.foldl_cons, hj, ih]

lemma foldl_stepI_fix {a b : List Nat} {best : Nat × Nat × Nat}
    (h : ∀ i j, matchLen (a.drop i) (b.drop j) ≤ best.2.2) :
    ∀ l : List Nat, l.foldl (stepI a b) best = best := by
  intro l
  induction l with
  | nil => rfl
  | cons i l ih =>
    have hi : stepI a b best i = best := foldl_stepJ_fix (h i) _
    simp [List.foldl_cons, hi, ih]

lemma bestMatch_self (x : Nat) (xs : List Nat) :
    bestMatch (x :: xs) (x :: xs) = (0, 0, xs.length + 1) := by
  have hb : ∀ i j, matchLen ((x :: xs).drop i) ((x :: xs).drop j) ≤ xs.length + 1 :=
    fun i j =>
      le_trans (matchLen_le_left _ _)
        (by rw [List.length_drop, List.length_cons]; omega)
  unfold bestMatch
  rw [show (x :: xs).length = xs.length + 1 from rfl, List.range_succ_eq_map,
    List.foldl_cons]
  have h1 : stepI (x :: xs) (x :: xs) (0, 0, 0) 0 = (0, 0, xs.length + 1) := by
    unfold stepI
    rw [show (x :: xs).length = xs.length + 1 from rfl, List.range_succ_eq_map,
      List.foldl_cons]
    have h0 : stepJ (x :: xs) (x :: xs) 0 (0, 0, 0) 0 = (0, 0, xs.length + 1) := by
      simp [stepJ, matchLen_self]
    rw [h0]
    exact foldl_stepJ_fix (fun j => hb 0 j) _
  rw [h1]
  exact foldl_stepI_fix hb _

lemma matchTotalF_nil_left (fuel : Nat) (b : List Nat) :
    matchTotalF fuel [] b = 0 := by
  cases fuel with
  | zero => rfl
  | succ f => simp [matchTotalF, bestMatch]

lemma matchTotal_self (t : List Nat) : matchTotal t t = t.length := by
  cases t with
  | nil => rfl
  | cons x xs =>
    show matchTotalF (xs.length + 1) (x :: xs) (x :: xs) = xs.length + 1
    rw [matchTotalF, bestMatch_self]
    simp [matchTotalF_nil_left, List.drop_length]

lemma pyRoundHalfEven_mul {d : Nat} (hd : 0 < d) :
    pyRoundHalfEven (100 * d) d = 100 := by
  have h1 : 100 * d / d = 100 := Nat.mul_div_cancel 100 hd
  have h2 : 100 * d % d = 0 := Nat.mul_mod_left 100 d
  simp [pyRoundHalfEven, h1, h2, hd]

lemma ratioPct_self (t : List Nat) : ratioPct t t = 100 := by
  cases t with
  | nil => rfl
  | cons x xs =>
    have hlen : ¬((x :: xs).length + (x :: xs).length = 0) := by simp
    have h200 : 200 * ((x :: xs).length) =
        100 * ((x :: xs).length + (x :: xs).length) := by ring
    simp only [ratioPct, matchTotal_self, hlen, if_false, h200]
    exact pyRoundHalfEven_mul (by simp)

/-- C2: the score of any non-empty string against itself is 100 — also
for strings of punctuation only, whose cleaned form is empty. -/
theorem c2_score_self (s : List Nat) (_h : s ≠ []) :
    calculate_similarity s s = 100 :=
  ratioPct_self (clean_text s)

theorem c2_witness :
    strLit "..." ≠ [] ∧ calculate_similarity (strLit "...") (strLit "...") = 100 :=
  ⟨by decide, c2_score_self (strLit "...") (by decide)⟩

/-- C3: the score of two empty strings is 100, the convention for the
two-empty-strings boundary case. -/
theorem c3_score_empty : calculate_similarity [] [] = 100 := by decide

set_option maxRecDepth 40000 in
/-- C6 fails as stated: the recursive longest-common-substring matching
procedure is order dependent, so the score is not symmetric — on
`"abuzvcd"` vs `"cdabwz"` the two orders give 46 and 31. -/
theorem c6_counterexample :
    calculate_similarity (strLit "abuzvcd") (strLit "cdabwz") ≠
      calculate_similarity (strLit "cdabwz") (strLit "abuzvcd") := by
  decide

/-- C6 amended: the score is symmetric whenever the two cleaned texts
coincide; in general the two argument orders may give different
scores. -/
theorem c6_amended (a b : List Nat) (h : clean_text a = clean_text b) :
    calculate_similarity a b = calculate_similarity b a := by
  unfold calculate_similarity
  rw [h]

theorem c6_witness :
    clean_text (strLit "Hi!") = clean_text (strLit "hi") ∧
      calculate_similarity (strLit "Hi!") (strLit "hi") =
        calculate_similarity (strLit "hi") (strLit "Hi!") :=
  ⟨by decide, c6_amended (strLit "Hi!") (strLit "hi") (by decide)⟩

/-! ### Lemmas about the persistence store -/

lemma get_save (db : Store) (sid t : List Nat) :
    get_original_text (save_original_text db sid t) sid = some t := by
  induction db with
  | nil => simp [save_original_text, get_original_text]
  | cons kv rest ih =>
    obtain ⟨k, v⟩ := kv
    by_cases hk : k = sid
    · simp [save_original_text, hk, get_original_text]
    · simp [save_original_text, hk, get_original_text, ih]

lemma get_delete (db : Store) (sid : List Nat) :
    get_original_text (delete_original_text db sid) sid = none := by
  induction db with
  | nil => rfl
  | cons kv rest ih =>
    obtain ⟨k, v⟩ := kv
    by_cases hk : k = sid
    · simp [delete_original_text, hk, ih]
    · simp [delete_original_text, hk, get_original_text, ih]

/-- C8: saving twice for the same session overwrites — after
`save id t1; save id t2` the lookup returns `t2`. -/
theorem c8_upsert_overwrite (db : Store) (sid t1 t2 : List Nat) :
    get_original_text
      (save_original_text (save_original_text db sid t1) sid t2) sid = some t2 :=
  get_save _ sid t2

/-! ### Claims about the handler -/

lemma handlerBody_shape {msg sid uid : List Nat} {nf : Option Bool}
    {db : Store} {fail : DBFail} {r : Response} {db' : Store}
    (h : handlerBody msg sid uid nf db fail = .ok (r, db')) :
    r.session.new = true ∧ r.response.end_session = false ∧
      r.version = strLit "1.0" := by
  simp only [handlerBody, ensure_table_exists] at h
  repeat' split at h
  all_goals cases h
  all_goals exact ⟨rfl, rfl, rfl⟩

/-- C1 fails as stated: on an event so malformed that no field can be
extracted, the `except` block itself evaluates the unbound locals
`session_id`/`user_id` and raises, so the exception escapes the
handler. -/
theorem c1_counterexample :
    handler ⟨none, none, none, none⟩ [] ⟨false, false, false, false⟩ =
      .error () := rfl

/-- C1 amended: whenever the utterance, session id and user id can be
extracted from the event, the handler never lets an exception escape —
it always returns a response — and every failure raised inside the try
block (schema-ensure, any of the persistence operations, scoring, or
the missing new-session key) is converted into the generic apology
response carrying the reset button, with the store as it was at the
failure point. -/
theorem c1_amended (ev : Event) (db : Store) (fail : DBFail)
    (msg sid uid : List Nat)
    (h1 : ev.request_original_utterance = some msg)
    (h2 : ev.session_session_id = some sid)
    (h3 : ev.session_user_id = some uid) :
    (∃ r db', handler ev db fail = .ok (r, db')) ∧
    (∀ e : Unit,
      handlerBody msg sid uid ev.session_new db fail = .error e →
      handler ev db fail = .ok (apology sid uid, db)) := by
  constructor
  · rcases hb : handlerBody msg sid uid ev.session_new db fail with e | p
    · exact ⟨apology sid uid, db, by simp [handler, h1, h2, h3, hb]⟩
    · exact ⟨p.1, p.2, by simp [handler, h1, h2, h3, hb]⟩
  · intro e hb
    simp [handler, h1, h2, h3, hb]

theorem c1_witness :
    (∃ r db',
      handler ⟨some (strLit "сбросить"), some (strLit "s1"), some (strLit "u1"),
          some false⟩ [(strLit "s1", strLit "стих")]
          ⟨false, true, false, false⟩ = .ok (r, db')) ∧
    handler ⟨some (strLit "сбросить"), some (strLit "s1"), some (strLit "u1"),
        some false⟩ [(strLit "s1", strLit "стих")]
        ⟨false, true, false, false⟩ =
      .ok (apology (strLit "s1") (strLit "u1"), [(strLit "s1", strLit "стих")]) :=
  ⟨(c1_amended _ _ _ (strLit "сбросить") (strLit "s1") (strLit "u1")
      rfl rfl rfl).1,
   (c1_amended _ _ _ (strLit "сбросить") (strLit "s1") (strLit "u1")
      rfl rfl rfl).2 () rfl⟩

set_option maxRecDepth 40000 in
/-- C4 fails as stated: punctuation is not stripped before the reset
comparison.  `"Сбросить."` normalizes (in the spec's sense) to the
reset keyword, yet the handler neither deletes the stored row nor
confirms a deletion — it answers with the similarity report and leaves
the store unchanged. -/
theorem c4_counterexample :
    clean_text (strLit "Сбросить.") = resetKeyword ∧
    handler ⟨some (strLit "Сбросить."), some (strLit "s1"), some (strLit "u1"),
        some false⟩ [(strLit "s1", strLit "привет")]
        ⟨false, false, false, false⟩ =
      .ok (create_response
            (scoreText (calculate_similarity (strLit "привет") (strLit "Сбросить."))
              (strLit "привет") (strLit "Сбросить."))
            (some [resetButton]) (some (strLit "s1")) (some (strLit "u1")),
          [(strLit "s1", strLit "привет")]) ∧
    handler ⟨some (strLit "Сбросить."), some (strLit "s1"), some (strLit "u1"),
        some false⟩ [(strLit "s1", strLit "привет")]
        ⟨false, false, false, false⟩ ≠
      .ok (create_response deletedText (some [resetButton]) (some (strLit "s1"))
            (some (strLit "u1")),
          delete_original_text [(strLit "s1", strLit "привет")] (strLit "s1")) := by
  refine ⟨by decide, by decide, by decide⟩

/-- C4 amended: the reset trigger is a case-insensitive exact match of
the lowercased utterance against the keyword, with no punctuation
stripping; when it matches on a non-new event, the handler deletes the
row for the session (whether or not one existed) and confirms the
deletion. -/
theorem c4_amended (ev : Event) (db : Store) (fail : DBFail)
    (msg sid uid : List Nat)
    (h1 : ev.request_original_utterance = some msg)
    (h2 : ev.session_session_id = some sid)
    (h3 : ev.session_user_id = some uid)
    (h4 : ev.session_new = some false)
    (hkw : msg.map pyLower = resetKeyword)
    (h5 : fail.ensure = false) (h6 : fail.del = false) :
    handler ev db fail =
      .ok (create_response deletedText (some [resetButton]) (some sid) (some uid),
        delete_original_text db sid) ∧
    get_original_text (delete_original_text db sid) sid = none := by
  refine ⟨?_, get_delete db sid⟩
  simp [handler, h1, h2, h3, handlerBody, h4, hkw, h5, h6, ensure_table_exists]

theorem c4_witness :
    handler ⟨some (strLit "СБРОСИТЬ"), some (strLit "s1"), some (strLit "u1"),
        some false⟩ [(strLit "s1", strLit "стих")]
        ⟨false, false, false, false⟩ =
      .ok (create_response deletedText (some [resetButton]) (some (strLit "s1"))
            (some (strLit "u1")),
          delete_original_text [(strLit "s1", strLit "стих")] (strLit "s1")) ∧
    get_original_text
        (delete_original_text [(strLit "s1", strLit "стих")] (strLit "s1"))
        (strLit "s1") = none :=
  c4_amended _ _ _ _ _ _ rfl rfl rfl rfl (by decide) rfl rfl

/-- C5: on a new-session event the handler greets and leaves the store
untouched, whatever the utterance — the reset keyword included, since
the new-session branch precedes the reset check. -/
theorem c5_new_session (ev : Event) (db : Store) (fail : DBFail)
    (msg sid uid : List Nat)
    (h1 : ev.request_original_utterance = some msg)
    (h2 : ev.session_session_id = some sid)
    (h3 : ev.session_user_id = some uid)
    (h4 : ev.session_new = some true)
    (h5 : fail.ensure = false) :
    handler ev db fail =
      .ok (create_response greetText (some [resetButton]) (some sid) (some uid),
        db) := by
  simp [handler, h1, h2, h3, handlerBody, h4, h5, ensure_table_exists]

theorem c5_witness :
    handler ⟨some resetKeyword, some (strLit "s1"), some (strLit "u1"), some true⟩
        [(strLit "s1", strLit "стих")] ⟨false, false, false, false⟩ =
      .ok (create_response greetText (some [resetButton]) (some (strLit "s1"))
            (some (strLit "u1")), [(strLit "s1", strLit "стих")]) :=
  c5_new_session _ _ _ _ _ _ rfl rfl rfl rfl rfl

/-- C9: an empty stored original text is treated as absent — on a
non-new, non-reset event the handler overwrites it with the new
utterance and returns the save confirmation, not a similarity
report. -/
theorem c9_empty_stored (ev : Event) (db : Store) (fail : DBFail)
    (msg sid uid : List Nat)
    (h1 : ev.request_original_utterance = some msg)
    (h2 : ev.session_session_id = some sid)
    (h3 : ev.session_user_id = some uid)
    (h4 : ev.session_new = some false)
    (hkw : ¬msg.map pyLower = resetKeyword)
    (hget : get_original_text db sid = some [])
    (h5 : fail.ensure = false) (h6 : fail.get = false) (h7 : fail.save = false) :
    handler ev db fail =
      .ok (create_response savedText (some [resetButton]) (some sid) (some uid),
        save_original_text db sid msg) ∧
    get_original_text (save_original_text db sid msg) sid = some msg := by
  refine ⟨?_, get_save db sid msg⟩
  simp [handler, h1, h2, h3, handlerBody, h4, hkw, hget, h5, h6, h7,
    ensure_table_exists]

theorem c9_witness :
    handler ⟨some (strLit "привет"), some (strLit "s1"), some (strLit "u1"),
        some false⟩ [(strLit "s1", [])] ⟨false, false, false, false⟩ =
      .ok (create_response savedText (some [resetButton]) (some (strLit "s1"))
            (some (strLit "u1")),
          save_original_text [(strLit "s1", [])] (strLit "s1") (strLit "привет")) ∧
    get_original_text
        (save_original_text [(strLit "s1", [])] (strLit "s1") (strLit "привет"))
        (strLit "s1") = some (strLit "привет") :=
  c9_empty_stored _ _ _ _ _ _ rfl rfl rfl rfl (by decide) rfl rfl rfl rfl

/-- C10: every payload built by `create_response` — and hence every
response the handler returns on any branch, the error branch included —
has `session.new = true`, `end_session = false` and `version = "1.0"`,
regardless of the inbound new-session flag. -/
theorem c10_response_shape :
    (∀ (text : List Nat) (buttons : Option (List Button))
        (sid uid : Option (List Nat)),
      (create_response text buttons sid uid).session.new = true ∧
      (create_response text buttons sid uid).response.end_session = false ∧
      (create_response text buttons sid uid).version = strLit "1.0") ∧
    (∀ (ev : Event) (db : Store) (fail : DBFail) (r : Response) (db' : Store),
      handler ev db fail = .ok (r, db') →
      r.session.new = true ∧ r.response.end_session = false ∧
        r.version = strLit "1.0") := by
  refine ⟨fun _ _ _ _ => ⟨rfl, rfl, rfl⟩, ?_⟩
  intro ev db fail r db' h
  unfold handler at h
  repeat' split at h
  all_goals cases h
  all_goals first
    | exact handlerBody_shape (by assumption)
    | exact ⟨rfl, rfl, rfl⟩

theorem c10_witness :
    ((create_response greetText none none none).session.new = true ∧
      (create_response greetText none none none).response.end_session = false ∧
      (create_response greetText none none none).version = strLit "1.0") ∧
    ((create_response greetText (some [resetButton]) (some (strLit "s1"))
        (some (strLit "u1"))).session.new = true ∧
      (create_response greetText (some [resetButton]) (some (strLit "s1"))
        (some (strLit "u1"))).response.end_session = false ∧
      (create_response greetText (some [resetButton]) (some (strLit "s1"))
        (some (strLit "u1"))).version = strLit "1.0") :=
  ⟨c10_response_shape.1 greetText none none none,
   c10_response_shape.2
     ⟨some (strLit "привет"), some (strLit "s1"), some (strLit "u1"), some true⟩
     [] ⟨false, false, false, false⟩
     (create_response greetText (some [resetButton]) (some (strLit "s1"))
       (some (strLit "u1"))) [] rfl⟩

end Memorize
